import Mathlib

/-!
Verification of the MAAS change-notification core (maasserver/triggers.py and
maasserver/dbviews.py) against its natural-language specification.

The trigger layer is PL/pgSQL generated from Python string templates.  We give
a shallow embedding: each notification procedure becomes a Lean function from
the relevant database state and row images to the list of notifications it
emits (in emission order), and trigger registration becomes a function on the
set of installed trigger definitions.  SQL NULL is modelled with Option; a
SELECT INTO that finds no row yields none, and comparisons against NULL are
false (SQL three-valued logic collapsed at the IF boundary, where NULL is not
taken as true).
-/

/-- A row of the maasserver_node table, restricted to the columns the
notification procedures read. -/
structure Node where
  id : Nat
  system_id : String
  installable : Bool
deriving DecidableEq, Repr

/-- A row of maasserver_blockdevice (node_id is NOT NULL in the schema). -/
structure BlockDevice where
  id : Nat
  node_id : Nat
deriving DecidableEq, Repr

/-- A row of maasserver_partitiontable. -/
structure PartitionTable where
  id : Nat
  block_device_id : Nat
deriving DecidableEq, Repr

/-- A row of maasserver_partition. -/
structure Partition where
  id : Nat
  partition_table_id : Nat
deriving DecidableEq, Repr

/-- A row of maasserver_filesystem; its foreign keys are nullable. -/
structure Filesystem where
  id : Nat
  block_device_id : Option Nat
  partition_id : Option Nat
  filesystem_group_id : Option Nat
  cache_set_id : Option Nat
deriving DecidableEq, Repr

/-- A row of maasserver_macaddress; node_id is nullable. -/
structure MacAddress where
  id : Nat
  node_id : Option Nat
deriving DecidableEq, Repr

/-- A row of maasserver_sshkey or maasserver_sslkey, restricted to the
columns the notification procedures read. -/
structure KeyRow where
  id : Nat
  user_id : Nat
deriving DecidableEq, Repr

/-- One pg_notify call: channel name and payload.  The payload is an Option
because CAST(NULL AS text) is NULL (pg_notify then delivers an empty
payload); a none payload records that the procedure notified without having
resolved an owning row. -/
structure Notification where
  channel : String
  payload : Option String
deriving DecidableEq, Repr

/-- The slice of database state the notification procedures query. -/
structure DB where
  nodes : List Node
  blockdevices : List BlockDevice
  partitiontables : List PartitionTable
  partitions : List Partition
  filesystems : List Filesystem
  node_tags : List (Nat × Nat)
deriving DecidableEq, Repr

/-- SQL equality between two nullable integers: NULL = x is not true. -/
def sqlEq : Option Nat → Option Nat → Bool
  | some a, some b => a == b
  | _, _ => false

/-- SQL inequality between two nullable integers as used in an IF condition:
NULL != x is not true. -/
def sqlNeq : Option Nat → Option Nat → Bool
  | some a, some b => a != b
  | _, _ => false

/-- SELECT ... FROM maasserver_node WHERE id = nid, first row. -/
def lookup_node (nodes : List Node) (nid : Option Nat) : Option Node :=
  match nid with
  | none => none
  | some x => nodes.find? (fun n => n.id == x)

/-- The repeated PL/pgSQL block: IF node.installable THEN notify node_update
ELSE notify device_update, applied to the record a SELECT INTO produced.
When the SELECT found no row the record fields are NULL; IF NULL is not
taken, so the ELSE branch fires with a NULL payload. -/
def notifyNodeOrDevice : Option Node → List Notification
  | some n =>
      if n.installable then [⟨"node_update", some n.system_id⟩]
      else [⟨"device_update", some n.system_id⟩]
  | none => [⟨"device_update", none⟩]

/-- Body of render_notification_procedure: PERFORM pg_notify(event, CAST(x
AS text)). -/
def notification_procedure (event : String) (payload : Option String) :
    List Notification :=
  [⟨event, payload⟩]

/-- Body of render_node_related_notification_procedure: look the node up by
the given node-id column, then route on installable. -/
def node_related_notification (nodes : List Node) (nid : Option Nat) :
    List Notification :=
  notifyNodeOrDevice (lookup_node nodes nid)

/- ---------------------------------------------------------------------
Node table triggers.

register_all_triggers installs, on maasserver_node, six triggers built from
render_notification_procedure: node_create_notify / node_update_notify /
node_delete_notify filtered by installable = True, and device_create_notify /
device_update_notify / device_delete_notify filtered by installable = False.
Insert and update read NEW, delete reads OLD.  PostgreSQL fires same-event
triggers in name order, so the device_* trigger is considered first; at most
one of the two WHEN filters passes for a given row.
--------------------------------------------------------------------- -/

/-- Evaluation of the rendered WHEN clause, e.g. (NEW.installable = 'True'):
the row's installable column compared against the quoted boolean literal. -/
def eval_installable_filter (v : String) (row : Node) : Bool :=
  row.installable == (v == "True")

/-- All notifications emitted by an insert into maasserver_node. -/
def node_insert_dispatch (new : Node) : List Notification :=
  (if eval_installable_filter "False" new then
    notification_procedure "device_create" (some new.system_id) else []) ++
  (if eval_installable_filter "True" new then
    notification_procedure "node_create" (some new.system_id) else [])

/-- All notifications emitted by an update of a maasserver_node row. -/
def node_update_dispatch (new : Node) : List Notification :=
  (if eval_installable_filter "False" new then
    notification_procedure "device_update" (some new.system_id) else []) ++
  (if eval_installable_filter "True" new then
    notification_procedure "node_update" (some new.system_id) else [])

/-- All notifications emitted by a delete of a maasserver_node row; both
procedures read the OLD image. -/
def node_delete_dispatch (old : Node) : List Notification :=
  (if eval_installable_filter "False" old then
    notification_procedure "device_delete" (some old.system_id) else []) ++
  (if eval_installable_filter "True" old then
    notification_procedure "node_delete" (some old.system_id) else [])

/- ---------------------------------------------------------------------
SSH/SSL key triggers: user_sshkey_link_notify and friends are plain
render_notification_procedure instances on channel user_update, with the
user_id column as payload.
--------------------------------------------------------------------- -/

/-- Notifications for an insert into maasserver_sshkey. -/
def sshkey_insert_dispatch (new : KeyRow) : List Notification :=
  notification_procedure "user_update" (some (toString new.user_id))

/-- Notifications for a delete from maasserver_sshkey (OLD image). -/
def sshkey_delete_dispatch (old : KeyRow) : List Notification :=
  notification_procedure "user_update" (some (toString old.user_id))

/-- Notifications for an insert into maasserver_sslkey. -/
def sslkey_insert_dispatch (new : KeyRow) : List Notification :=
  notification_procedure "user_update" (some (toString new.user_id))

/-- Notifications for a delete from maasserver_sslkey (OLD image). -/
def sslkey_delete_dispatch (old : KeyRow) : List Notification :=
  notification_procedure "user_update" (some (toString old.user_id))

/-- The channels on which node- and device-kind notifications travel. -/
def nodeChannels : List String :=
  ["node_create", "node_update", "node_delete",
   "device_create", "device_update", "device_delete"]

/- ---------------------------------------------------------------------
Join helpers.  A PL/pgSQL SELECT INTO over a comma-separated FROM list is a
filtered cross product of which the first row is kept; we enumerate the
product in the FROM order with nested loops and take find?.
--------------------------------------------------------------------- -/

/-- Cross product of two tables in FROM order. -/
def sqlFrom2 (as : List α) (bs : List β) : List (α × β) :=
  as.flatMap (fun a => bs.map (fun b => (a, b)))

/-- Cross product of three tables in FROM order. -/
def sqlFrom3 (as : List α) (bs : List β) (cs : List γ) :
    List (α × β × γ) :=
  as.flatMap (fun a => bs.flatMap (fun b => cs.map (fun c => (a, b, c))))

/-- Cross product of four tables in FROM order. -/
def sqlFrom4 (as : List α) (bs : List β) (cs : List γ) (ds : List δ) :
    List (α × β × γ × δ) :=
  as.flatMap (fun a => bs.flatMap (fun b =>
    cs.flatMap (fun c => ds.map (fun d => (a, b, c, d)))))

/-- Cross product of five tables in FROM order. -/
def sqlFrom5 (as : List α) (bs : List β) (cs : List γ) (ds : List δ)
    (es : List ε) : List (α × β × γ × δ × ε) :=
  as.flatMap (fun a => bs.flatMap (fun b => cs.flatMap (fun c =>
    ds.flatMap (fun d => es.map (fun e => (a, b, c, d, e))))))

/- ---------------------------------------------------------------------
Block-device level resolvers.
--------------------------------------------------------------------- -/

/-- Lookup of PHYSICAL_OR_VIRTUAL_BLOCK_DEVICE_NODE_NOTIFY: SELECT system_id,
installable FROM maasserver_node, maasserver_blockdevice WHERE node.id =
blockdevice.node_id AND blockdevice.id = the parameter. -/
def pvbd_lookup (db : DB) (bdid : Option Nat) : Option Node :=
  ((sqlFrom2 db.nodes db.blockdevices).find? (fun r =>
    r.1.id == r.2.node_id && sqlEq (some r.2.id) bdid)).map (fun r => r.1)

/-- Body of PHYSICAL_OR_VIRTUAL_BLOCK_DEVICE_NODE_NOTIFY: route the resolved
node on its installable flag. -/
def physical_or_virtual_block_device_node_notify (db : DB)
    (bdid : Option Nat) : List Notification :=
  notifyNodeOrDevice (pvbd_lookup db bdid)

/- ---------------------------------------------------------------------
Multi-hop storage resolvers.  These SELECT only system_id (never
installable) and notify on node_update unconditionally; FILESYSTEM,
FILESYSTEMGROUP and CACHESET additionally guard on node.system_id != '',
which a NULL system_id (empty result) does not pass.  PARTITIONTABLE and
PARTITION have no guard: they notify even when the lookup found nothing,
with a NULL payload.
--------------------------------------------------------------------- -/

/-- Lookup of PARTITIONTABLE_NODE_NOTIFY: SELECT system_id FROM node,
blockdevice WHERE node.id = blockdevice.node_id AND blockdevice.id = the
block_device_id parameter. -/
def pt_lookup (db : DB) (bdid : Option Nat) : Option String :=
  ((sqlFrom2 db.nodes db.blockdevices).find? (fun r =>
    r.1.id == r.2.node_id && sqlEq (some r.2.id) bdid)).map
      (fun r => r.1.system_id)

/-- Body of PARTITIONTABLE_NODE_NOTIFY: unconditional pg_notify on
node_update with the (possibly NULL) system_id. -/
def partitiontable_node_notify (db : DB) (bdid : Option Nat) :
    List Notification :=
  [⟨"node_update", pt_lookup db bdid⟩]

/-- Lookup of PARTITION_NODE_NOTIFY: join node, blockdevice,
partitiontable on the chain, filtered by the partition_table_id
parameter. -/
def partition_lookup (db : DB) (ptid : Option Nat) : Option String :=
  ((sqlFrom3 db.nodes db.blockdevices db.partitiontables).find? (fun r =>
    r.1.id == r.2.1.node_id && r.2.1.id == r.2.2.block_device_id &&
      sqlEq (some r.2.2.id) ptid)).map (fun r => r.1.system_id)

/-- Body of PARTITION_NODE_NOTIFY: unconditional pg_notify on node_update
with the (possibly NULL) system_id. -/
def partition_node_notify (db : DB) (ptid : Option Nat) :
    List Notification :=
  [⟨"node_update", partition_lookup db ptid⟩]

/-- Lookup of FILESYSTEM_NODE_NOTIFY.  The WHERE clause is (node.id =
blockdevice.node_id AND blockdevice.id = bdid) OR (blockdevice.id =
partitiontable.block_device_id AND partitiontable.id =
partition.partition_table_id AND partition.id = pid); AND binds tighter
than OR, and the second disjunct leaves the node row unconstrained, exactly
as in the source SQL. -/
def fs_lookup (db : DB) (bdid pid : Option Nat) : Option String :=
  ((sqlFrom4 db.nodes db.blockdevices db.partitions
      db.partitiontables).find? (fun r =>
    (r.1.id == r.2.1.node_id && sqlEq (some r.2.1.id) bdid) ||
    (r.2.1.id == r.2.2.2.block_device_id &&
      r.2.2.2.id == r.2.2.1.partition_table_id &&
      sqlEq (some r.2.2.1.id) pid))).map (fun r => r.1.system_id)

/-- Body of FILESYSTEM_NODE_NOTIFY: notify node_update only when the guard
node.system_id != '' passes (a NULL system_id does not). -/
def filesystem_node_notify (db : DB) (bdid pid : Option Nat) :
    List Notification :=
  match fs_lookup db bdid pid with
  | none => []
  | some s => if s == "" then [] else [⟨"node_update", some s⟩]

/-- Lookup of FILESYSTEMGROUP_NODE_NOTIFY: the full join chain node →
blockdevice → partitiontable → partition → filesystem, filtered by
filesystem.filesystem_group_id = gid OR filesystem.cache_set_id = csid. -/
def fsgroup_lookup (db : DB) (gid csid : Option Nat) : Option String :=
  ((sqlFrom5 db.nodes db.blockdevices db.partitions db.partitiontables
      db.filesystems).find? (fun r =>
    r.1.id == r.2.1.node_id &&
    r.2.1.id == r.2.2.2.1.block_device_id &&
    r.2.2.2.1.id == r.2.2.1.partition_table_id &&
    sqlEq (some r.2.2.1.id) r.2.2.2.2.partition_id &&
    (sqlEq r.2.2.2.2.filesystem_group_id gid ||
      sqlEq r.2.2.2.2.cache_set_id csid))).map (fun r => r.1.system_id)

/-- Body of FILESYSTEMGROUP_NODE_NOTIFY: guarded notify on node_update. -/
def filesystemgroup_node_notify (db : DB) (gid csid : Option Nat) :
    List Notification :=
  match fsgroup_lookup db gid csid with
  | none => []
  | some s => if s == "" then [] else [⟨"node_update", some s⟩]

/-- Lookup of CACHESET_NODE_NOTIFY: the full join chain filtered by
filesystem.cache_set_id = csid. -/
def cacheset_lookup (db : DB) (csid : Option Nat) : Option String :=
  ((sqlFrom5 db.nodes db.blockdevices db.partitions db.partitiontables
      db.filesystems).find? (fun r =>
    r.1.id == r.2.1.node_id &&
    r.2.1.id == r.2.2.2.1.block_device_id &&
    r.2.2.2.1.id == r.2.2.1.partition_table_id &&
    sqlEq (some r.2.2.1.id) r.2.2.2.2.partition_id &&
    sqlEq r.2.2.2.2.cache_set_id csid)).map (fun r => r.1.system_id)

/-- Body of CACHESET_NODE_NOTIFY: guarded notify on node_update. -/
def cacheset_node_notify (db : DB) (csid : Option Nat) :
    List Notification :=
  match cacheset_lookup db csid with
  | none => []
  | some s => if s == "" then [] else [⟨"node_update", some s⟩]

/- ---------------------------------------------------------------------
Tag resolvers.
--------------------------------------------------------------------- -/

/-- Body of TAG_NODES_NOTIFY (tag_update_node_device_notify): loop over the
join of maasserver_node_tags and maasserver_node filtered by tag_id =
NEW.id, and route each node on its installable flag. -/
def tag_update_node_device_notify (db : DB) (tagId : Nat) :
    List Notification :=
  (db.node_tags.filter (fun nt => nt.1 == tagId)).flatMap (fun nt =>
    (db.nodes.filter (fun n => n.id == nt.2)).map (fun n =>
      if n.installable then
        Notification.mk "node_update" (some n.system_id)
      else Notification.mk "device_update" (some n.system_id)))

/-- All notifications emitted by an update of a maasserver_tag row: both
registered update triggers fire; PostgreSQL orders same-event triggers by
name, and maasserver_tag_tag_update_node_device_notify sorts before
maasserver_tag_tag_update_notify. -/
def tag_update_dispatch (db : DB) (newId : Nat) : List Notification :=
  tag_update_node_device_notify db newId ++
    notification_procedure "tag_update" (some (toString newId))

/- ---------------------------------------------------------------------
MAC address update resolver.
--------------------------------------------------------------------- -/

/-- Body of MACADDRESS_UPDATE_NODE_NOTIFY (nd_macaddress_update_notify): if
OLD.node_id != NEW.node_id, resolve and notify for the old node; then
resolve and notify for the new node. -/
def nd_macaddress_update_notify (nodes : List Node) (old new : MacAddress) :
    List Notification :=
  (if sqlNeq old.node_id new.node_id then
    notifyNodeOrDevice (lookup_node nodes old.node_id) else []) ++
  notifyNodeOrDevice (lookup_node nodes new.node_id)

/- ---------------------------------------------------------------------
Trigger registration.

register_trigger(table, procedure, event, params) names the trigger
"table_procedure", issues DROP TRIGGER IF EXISTS on that name, and creates
it afresh, optionally with a rendered WHEN clause from params.  We model
the installed triggers as a list of definitions keyed by (table, trigger
name); DROP-then-CREATE removes any same-key entry and appends the new one.
--------------------------------------------------------------------- -/

/-- One register_trigger call site: its arguments as they appear in
register_all_triggers.  params models the optional one-entry filter dict
(column, quoted value). -/
structure Registration where
  table : String
  procedure : String
  event : String
  params : Option (String × String)
deriving DecidableEq, Repr

/-- Trigger name built by register_trigger. -/
def trigger_name_of (r : Registration) : String :=
  r.table ++ "_" ++ r.procedure

/-- An installed trigger. -/
structure TriggerDef where
  table : String
  trigger_name : String
  procedure : String
  event : String
  params : Option (String × String)
deriving DecidableEq, Repr

/-- The trigger a registration installs. -/
def toTrigger (r : Registration) : TriggerDef :=
  ⟨r.table, trigger_name_of r, r.procedure, r.event, r.params⟩

/-- Whether an installed trigger has the given table and trigger name (the
key DROP TRIGGER IF EXISTS ... ON table addresses). -/
def keyMatch (table name : String) (u : TriggerDef) : Bool :=
  u.table == table && u.trigger_name == name

/-- Effect of one register_trigger call on the installed set: drop the
same-key trigger if present, then create the new one. -/
def register_trigger (s : List TriggerDef) (r : Registration) :
    List TriggerDef :=
  (s.filter (fun u => !(keyMatch r.table (trigger_name_of r) u))) ++
    [toTrigger r]

/-- Run a sequence of registrations in order. -/
def register_run (regs : List Registration) (s : List TriggerDef) :
    List TriggerDef :=
  regs.foldl register_trigger s

/-- Whether an installed trigger is keyed by some registration in the
list. -/
def hitsAny (regs : List Registration) (u : TriggerDef) : Bool :=
  regs.any (fun r => keyMatch r.table (trigger_name_of r) u)

/-- The (table, trigger name) key a registration occupies. -/
def regKey (r : Registration) : String × String :=
  (r.table, trigger_name_of r)

/-- Every register_trigger call in register_all_triggers, in source
order. -/
def allRegistrations : List Registration :=
  [⟨"maasserver_node", "node_create_notify", "insert",
      some ("NEW.installable", "True")⟩,
   ⟨"maasserver_node", "node_update_notify", "update",
      some ("NEW.installable", "True")⟩,
   ⟨"maasserver_node", "node_delete_notify", "delete",
      some ("OLD.installable", "True")⟩,
   ⟨"maasserver_node", "device_create_notify", "insert",
      some ("NEW.installable", "False")⟩,
   ⟨"maasserver_node", "device_update_notify", "update",
      some ("NEW.installable", "False")⟩,
   ⟨"maasserver_node", "device_delete_notify", "delete",
      some ("OLD.installable", "False")⟩,
   ⟨"maasserver_nodegroup", "nodegroup_create_notify", "insert", none⟩,
   ⟨"maasserver_nodegroup", "nodegroup_update_notify", "update", none⟩,
   ⟨"maasserver_nodegroup", "nodegroup_delete_notify", "delete", none⟩,
   ⟨"maasserver_nodegroupinterface", "nodegroupinterface_create_notify",
      "insert", none⟩,
   ⟨"maasserver_nodegroupinterface", "nodegroupinterface_update_notify",
      "update", none⟩,
   ⟨"maasserver_nodegroupinterface", "nodegroupinterface_delete_notify",
      "delete", none⟩,
   ⟨"maasserver_zone", "zone_create_notify", "insert", none⟩,
   ⟨"maasserver_zone", "zone_update_notify", "update", none⟩,
   ⟨"maasserver_zone", "zone_delete_notify", "delete", none⟩,
   ⟨"maasserver_tag", "tag_create_notify", "insert", none⟩,
   ⟨"maasserver_tag", "tag_update_notify", "update", none⟩,
   ⟨"maasserver_tag", "tag_delete_notify", "delete", none⟩,
   ⟨"maasserver_node_tags", "node_device_tag_link_notify", "insert", none⟩,
   ⟨"maasserver_node_tags", "node_device_tag_unlink_notify", "delete",
      none⟩,
   ⟨"maasserver_tag", "tag_update_node_device_notify", "update", none⟩,
   ⟨"auth_user", "user_create_notify", "insert", none⟩,
   ⟨"auth_user", "user_update_notify", "update", none⟩,
   ⟨"auth_user", "user_delete_notify", "delete", none⟩,
   ⟨"maasserver_event", "event_create_notify", "insert", none⟩,
   ⟨"maasserver_event", "event_update_notify", "update", none⟩,
   ⟨"maasserver_event", "event_delete_notify", "delete", none⟩,
   ⟨"maasserver_event", "event_create_node_device_notify", "insert", none⟩,
   ⟨"maasserver_macstaticipaddresslink", "nd_sipaddress_link_notify",
      "insert", none⟩,
   ⟨"maasserver_macstaticipaddresslink", "nd_sipaddress_unlink_notify",
      "delete", none⟩,
   ⟨"maasserver_dhcplease", "nd_dhcplease_match_notify", "insert", none⟩,
   ⟨"maasserver_dhcplease", "nd_dhcplease_unmatch_notify", "delete", none⟩,
   ⟨"metadataserver_noderesult", "nd_noderesult_link_notify", "insert",
      none⟩,
   ⟨"metadataserver_noderesult", "nd_noderesult_unlink_notify", "delete",
      none⟩,
   ⟨"maasserver_macaddress", "nd_macaddress_link_notify", "insert", none⟩,
   ⟨"maasserver_macaddress", "nd_macaddress_unlink_notify", "delete",
      none⟩,
   ⟨"maasserver_macaddress", "nd_macaddress_update_notify", "update",
      none⟩,
   ⟨"maasserver_blockdevice", "nd_blockdevice_link_notify", "insert",
      none⟩,
   ⟨"maasserver_blockdevice", "nd_blockdevice_update_notify", "update",
      none⟩,
   ⟨"maasserver_blockdevice", "nd_blockdevice_unlink_notify", "delete",
      none⟩,
   ⟨"maasserver_physicalblockdevice", "nd_physblockdevice_update_notify",
      "update", none⟩,
   ⟨"maasserver_virtualblockdevice", "nd_virtblockdevice_update_notify",
      "update", none⟩,
   ⟨"maasserver_partitiontable", "nd_partitiontable_link_notify",
      "insert", none⟩,
   ⟨"maasserver_partitiontable", "nd_partitiontable_update_notify",
      "update", none⟩,
   ⟨"maasserver_partitiontable", "nd_partitiontable_unlink_notify",
      "delete", none⟩,
   ⟨"maasserver_partition", "nd_partition_link_notify", "insert", none⟩,
   ⟨"maasserver_partition", "nd_partition_update_notify", "update", none⟩,
   ⟨"maasserver_partition", "nd_partition_unlink_notify", "delete", none⟩,
   ⟨"maasserver_filesystem", "nd_filesystem_link_notify", "insert", none⟩,
   ⟨"maasserver_filesystem", "nd_filesystem_update_notify", "update",
      none⟩,
   ⟨"maasserver_filesystem", "nd_filesystem_unlink_notify", "delete",
      none⟩,
   ⟨"maasserver_filesystemgroup", "nd_filesystemgroup_link_notify",
      "insert", none⟩,
   ⟨"maasserver_filesystemgroup", "nd_filesystemgroup_update_notify",
      "update", none⟩,
   ⟨"maasserver_filesystemgroup", "nd_filesystemgroup_unlink_notify",
      "delete", none⟩,
   ⟨"maasserver_cacheset", "nd_cacheset_link_notify", "insert", none⟩,
   ⟨"maasserver_cacheset", "nd_cacheset_update_notify", "update", none⟩,
   ⟨"maasserver_cacheset", "nd_cacheset_unlink_notify", "delete", none⟩,
   ⟨"maasserver_sshkey", "user_sshkey_link_notify", "insert", none⟩,
   ⟨"maasserver_sshkey", "user_sshkey_unlink_notify", "delete", none⟩,
   ⟨"maasserver_sslkey", "user_sslkey_link_notify", "insert", none⟩,
   ⟨"maasserver_sslkey", "user_sslkey_unlink_notify", "delete", none⟩]

/-- Effect of one register_all_triggers call on the installed trigger
set. -/
def register_all_triggers (s : List TriggerDef) : List TriggerDef :=
  register_run allRegistrations s

/- ---------------------------------------------------------------------
Database views (dbviews.py).  State is the set of installed view names;
CREATE OR REPLACE VIEW keeps an existing name, DROP VIEW IF EXISTS removes
it and is a no-op when absent.
--------------------------------------------------------------------- -/

/-- View names of the _ALL_VIEWS dictionary. -/
def allViewNames : List String :=
  ["maasserver_discovery",
   "maas_support__node_overview",
   "maas_support__device_overview",
   "maas_support__node_networking",
   "maas_support__boot_source_selections",
   "maas_support__boot_source_cache",
   "maas_support__configuration__excluding_rpc_shared_secret",
   "maas_support__license_keys_present__excluding_key_material",
   "maas_support__ssh_keys__by_user",
   "maas_support__commissioning_result_summary"]

/-- Effect of _register_view on the installed-name set: CREATE OR REPLACE
VIEW replaces the definition but adds the name only when absent. -/
def register_view_name (s : List String) (name : String) : List String :=
  if s.contains name then s else s ++ [name]

/-- Effect of _drop_view_if_exists: remove the name when present, no error
when absent. -/
def drop_view_if_exists (s : List String) (name : String) : List String :=
  s.filter (fun v => !(v == name))

/-- Effect of register_all_views: install every view of _ALL_VIEWS. -/
def register_all_views (s : List String) : List String :=
  allViewNames.foldl register_view_name s

/-- Effect of drop_all_views: drop every view of _ALL_VIEWS. -/
def drop_all_views (s : List String) : List String :=
  allViewNames.foldl drop_view_if_exists s

/- ---------------------------------------------------------------------
Claims.
--------------------------------------------------------------------- -/

/-- Claim C1 is false as stated: inserting Node id 1, system_id abc,
installable true emits no notification on channel node_update at all; the
single emitted notification travels on channel node_create. -/
theorem claim1_counterexample :
    (node_insert_dispatch ⟨1, "abc", true⟩).filter
        (fun nf => nf.channel == "node_update") = [] ∧
      node_insert_dispatch ⟨1, "abc", true⟩ =
        [⟨"node_create", some "abc"⟩] := by
  decide

/-- Claim C1 (amended): for every insert into the Node table exactly one
notification is emitted, with payload the new row's system_id, on channel
node_create when installable is true and on channel device_create when it
is false; in particular nothing is emitted on device channels for an
installable row. -/
theorem claim1_node_insert_channels (new : Node) :
    node_insert_dispatch new =
      [⟨if new.installable then "node_create" else "device_create",
        some new.system_id⟩] := by
  cases h : new.installable <;>
    simp [node_insert_dispatch, eval_installable_filter,
      notification_procedure, h]

/-- Claim C5 is false as stated: deleting Node system_id abc with
installable true emits on channel node_delete, not on node_update or
device_update. -/
theorem claim5_counterexample :
    (node_delete_dispatch ⟨1, "abc", true⟩).filter
        (fun nf => nf.channel == "node_update" ||
          nf.channel == "device_update") = [] ∧
      node_delete_dispatch ⟨1, "abc", true⟩ =
        [⟨"node_delete", some "abc"⟩] := by
  decide

/-- Claim C5 (amended): deleting a Node row emits exactly one notification
whose payload is taken from the pre-delete OLD image (OLD.system_id), on
channel node_delete when the deleted row's installable flag is true and on
device_delete when it is false. -/
theorem claim5_node_delete (old : Node) :
    node_delete_dispatch old =
      [⟨if old.installable then "node_delete" else "device_delete",
        some old.system_id⟩] := by
  cases h : old.installable <;>
    simp [node_delete_dispatch, eval_installable_filter,
      notification_procedure, h]

/-- Claim C7: the two WHEN filters registered on each Node-table operation
(installable = True and installable = False) are mutually exclusive and
collectively exhaustive, so every inserted, updated or deleted Node row
fires exactly one of the two bindings. -/
theorem claim7_filters (row : Node) :
    ((eval_installable_filter "True" row = true ∧
        eval_installable_filter "False" row = false) ∨
      (eval_installable_filter "True" row = false ∧
        eval_installable_filter "False" row = true)) ∧
      (node_insert_dispatch row).length = 1 ∧
      (node_update_dispatch row).length = 1 ∧
      (node_delete_dispatch row).length = 1 := by
  cases h : row.installable <;>
    simp [eval_installable_filter, node_insert_dispatch,
      node_update_dispatch, node_delete_dispatch,
      notification_procedure, h]

/-- Claim C8: every insert or delete of an SSHKey or SSLKey row emits
exactly one notification, on channel user_update with the owning user's id
as payload, and user_update is not one of the node or device channels. -/
theorem claim8_user_keys (row : KeyRow) :
    sshkey_insert_dispatch row =
        [⟨"user_update", some (toString row.user_id)⟩] ∧
      sshkey_delete_dispatch row =
        [⟨"user_update", some (toString row.user_id)⟩] ∧
      sslkey_insert_dispatch row =
        [⟨"user_update", some (toString row.user_id)⟩] ∧
      sslkey_delete_dispatch row =
        [⟨"user_update", some (toString row.user_id)⟩] ∧
      nodeChannels.contains "user_update" = false :=
  ⟨rfl, rfl, rfl, rfl, by decide⟩

/-- Concrete state for claim C2: one non-installable node owning block
device 5, which carries partition table 7. -/
def dbDeviceStorage : DB :=
  ⟨[⟨1, "abc", false⟩], [⟨5, 1⟩], [⟨7, 5⟩], [], [], []⟩

/-- Claim C2 is false as stated: updating partition table 7, owned through
block device 5 by the non-installable node abc, emits on channel
node_update and emits nothing on device_update, although the claim demands
the device channel for a non-installable owner. -/
theorem claim2_counterexample :
    partitiontable_node_notify dbDeviceStorage (some 5) =
        [⟨"node_update", some "abc"⟩] ∧
      (partitiontable_node_notify dbDeviceStorage (some 5)).filter
        (fun nf => nf.channel == "device_update") = [] ∧
      dbDeviceStorage.nodes = [⟨1, "abc", false⟩] := by
  decide

/-- Claim C2 (amended): the direct and one-hop resolvers (the generic
node-FK procedure and the physical/virtual block device procedure) route on
the resolved node's installable flag, node_update for installable and
device_update otherwise; but the five multi-hop storage resolvers
(PartitionTable, Partition, Filesystem, FilesystemGroup, CacheSet) emit
every notification on node_update, regardless of the owning node's
installable flag. -/
theorem claim2_routing :
    (∀ (nodes : List Node) (nid : Option Nat) (n : Node),
        lookup_node nodes nid = some n →
        node_related_notification nodes nid =
          [⟨if n.installable then "node_update" else "device_update",
            some n.system_id⟩]) ∧
    (∀ (db : DB) (bdid : Option Nat) (n : Node),
        pvbd_lookup db bdid = some n →
        physical_or_virtual_block_device_node_notify db bdid =
          [⟨if n.installable then "node_update" else "device_update",
            some n.system_id⟩]) ∧
    (∀ (db : DB) (bdid : Option Nat),
        ∀ nf ∈ partitiontable_node_notify db bdid,
          nf.channel = "node_update") ∧
    (∀ (db : DB) (ptid : Option Nat),
        ∀ nf ∈ partition_node_notify db ptid,
          nf.channel = "node_update") ∧
    (∀ (db : DB) (bdid pid : Option Nat),
        ∀ nf ∈ filesystem_node_notify db bdid pid,
          nf.channel = "node_update") ∧
    (∀ (db : DB) (gid csid : Option Nat),
        ∀ nf ∈ filesystemgroup_node_notify db gid csid,
          nf.channel = "node_update") ∧
    (∀ (db : DB) (csid : Option Nat),
        ∀ nf ∈ cacheset_node_notify db csid,
          nf.channel = "node_update") := by
  refine ⟨?_, ?_, ?_, ?_, ?_, ?_, ?_⟩
  · intro nodes nid n h
    rw [node_related_notification, h]
    cases hi : n.installable <;> simp [notifyNodeOrDevice, hi]
  · intro db bdid n h
    rw [physical_or_virtual_block_device_node_notify, h]
    cases hi : n.installable <;> simp [notifyNodeOrDevice, hi]
  · intro db bdid nf h
    simp only [partitiontable_node_notify, List.mem_singleton] at h
    rw [h]
  · intro db ptid nf h
    simp only [partition_node_notify, List.mem_singleton] at h
    rw [h]
  · intro db bdid pid nf h
    rw [filesystem_node_notify] at h
    split at h
    · simp at h
    · split at h
      · simp at h
      · simp only [List.mem_singleton] at h
        rw [h]
  · intro db gid csid nf h
    rw [filesystemgroup_node_notify] at h
    split at h
    · simp at h
    · split at h
      · simp at h
      · simp only [List.mem_singleton] at h
        rw [h]
  · intro db csid nf h
    rw [cacheset_node_notify] at h
    split at h
    · simp at h
    · split at h
      · simp at h
      · simp only [List.mem_singleton] at h
        rw [h]

/-- Witness for claim C2 at concrete states: a one-hop lookup of the
installable node abc routes to node_update, and the block-device resolver
routes the non-installable owner of block device 5 to device_update. -/
theorem claim2_witness :
    node_related_notification [⟨1, "abc", true⟩] (some 1) =
        [⟨"node_update", some "abc"⟩] ∧
      physical_or_virtual_block_device_node_notify dbDeviceStorage
          (some 5) = [⟨"device_update", some "abc"⟩] := by
  constructor
  · have h := claim2_routing.1 [⟨1, "abc", true⟩] (some 1)
      ⟨1, "abc", true⟩ (by decide)
    simpa using h
  · have h := claim2_routing.2.1 dbDeviceStorage (some 5)
      ⟨1, "abc", false⟩ (by decide)
    simpa using h

/-- Concrete state for claim C3: tag 7 linked to the installable node abc
and the non-installable node def. -/
def dbTagPair : DB :=
  ⟨[⟨1, "abc", true⟩, ⟨2, "def", false⟩], [], [], [], [],
    [(7, 1), (7, 2)]⟩

/-- Claim C3 is false as stated: updating tag 7, linked to exactly the
installable node abc and the non-installable node def, emits three
notifications, not two — the tag_update_notify trigger on the same table
and operation also fires, with the tag id as payload. -/
theorem claim3_counterexample :
    (tag_update_dispatch dbTagPair 7).length = 3 := by
  decide

/-- Claim C3 (amended): updating a Tag row linked to exactly one
installable node N1 and one non-installable node N2 emits exactly one
node_update with N1's system_id and exactly one device_update with N2's
system_id, plus the tag_update notification carrying the tag's own id that
the plain tag_update_notify trigger emits for the same operation. -/
theorem claim3_tag_update (db : DB) (t i1 i2 : Nat) (n1 n2 : Node)
    (h1 : db.node_tags.filter (fun nt => nt.1 == t) = [(t, i1), (t, i2)])
    (h2 : db.nodes.filter (fun n => n.id == i1) = [n1])
    (h3 : db.nodes.filter (fun n => n.id == i2) = [n2])
    (hi1 : n1.installable = true) (hi2 : n2.installable = false) :
    tag_update_dispatch db t =
      [⟨"node_update", some n1.system_id⟩,
       ⟨"device_update", some n2.system_id⟩,
       ⟨"tag_update", some (toString t)⟩] := by
  rw [tag_update_dispatch, tag_update_node_device_notify, h1]
  simp [h2, h3, hi1, hi2, notification_procedure]

/-- Witness for claim C3 at the concrete state dbTagPair. -/
theorem claim3_witness :
    tag_update_dispatch dbTagPair 7 =
      [⟨"node_update", some "abc"⟩, ⟨"device_update", some "def"⟩,
       ⟨"tag_update", some (toString 7)⟩] :=
  claim3_tag_update dbTagPair 7 1 2 ⟨1, "abc", true⟩ ⟨2, "def", false⟩
    (by decide) (by decide) (by decide) rfl rfl

/-- The empty database state, on which no resolver join path matches. -/
def dbEmpty : DB := ⟨[], [], [], [], [], []⟩

/-- Claim C4 is false as stated: an update of partition table row whose
block device 1 does not exist emits one node_update notification with a
NULL payload rather than none, and a partition update is likewise
unguarded; the empty-result guard exists only in the Filesystem,
FilesystemGroup and CacheSet procedures. -/
theorem claim4_counterexample :
    partitiontable_node_notify dbEmpty (some 1) =
        [⟨"node_update", none⟩] ∧
      partition_node_notify dbEmpty (some 1) ≠ [] := by
  decide

/-- Claim C4 (amended): when no join path reaches an owning Node, the
Filesystem, FilesystemGroup and CacheSet procedures emit nothing, guarded
by the explicit check of node.system_id; the PartitionTable and Partition
procedures have no such guard and emit one node_update notification with a
NULL payload.  No case raises an error: the mutation proceeds. -/
theorem claim4_empty_result (db : DB) (bdid pid ptid gid csid : Option Nat) :
    (fs_lookup db bdid pid = none →
        filesystem_node_notify db bdid pid = []) ∧
      (fsgroup_lookup db gid csid = none →
        filesystemgroup_node_notify db gid csid = []) ∧
      (cacheset_lookup db csid = none →
        cacheset_node_notify db csid = []) ∧
      (pt_lookup db bdid = none →
        partitiontable_node_notify db bdid = [⟨"node_update", none⟩]) ∧
      (partition_lookup db ptid = none →
        partition_node_notify db ptid = [⟨"node_update", none⟩]) := by
  refine ⟨?_, ?_, ?_, ?_, ?_⟩ <;> intro h <;>
    simp [filesystem_node_notify, filesystemgroup_node_notify,
      cacheset_node_notify, partitiontable_node_notify,
      partition_node_notify, h]

/-- Witness for claim C4 at the empty state. -/
theorem claim4_witness :
    filesystem_node_notify dbEmpty none none = [] ∧
      partitiontable_node_notify dbEmpty (some 2) =
        [⟨"node_update", none⟩] := by
  constructor
  · exact (claim4_empty_result dbEmpty none none none none none).1
      (by decide)
  · exact (claim4_empty_result dbEmpty (some 2) none none none
      none).2.2.2.1 (by decide)

/-- Claim C10: updating a MACAddress row whose old and new node columns
both resolve emits, when the node_id changed, one notification for the old
owning node followed by one for the new owning node, and when it is
unchanged, exactly one notification for the current owning node — each on
node_update or device_update according to that node's installable flag. -/
theorem claim10_macaddress_update (nodes : List Node)
    (old new : MacAddress) (a b : Nat) (n1 n2 : Node)
    (ha : old.node_id = some a) (hb : new.node_id = some b)
    (h1 : lookup_node nodes (some a) = some n1)
    (h2 : lookup_node nodes (some b) = some n2) :
    nd_macaddress_update_notify nodes old new =
      (if a ≠ b then
        [⟨if n1.installable then "node_update" else "device_update",
          some n1.system_id⟩] else []) ++
      [⟨if n2.installable then "node_update" else "device_update",
        some n2.system_id⟩] := by
  rw [nd_macaddress_update_notify, ha, hb, h1, h2]
  by_cases hab : a = b
  · subst hab
    cases hn2 : n2.installable <;> simp [sqlNeq, notifyNodeOrDevice, hn2]
  · cases hn1 : n1.installable <;> cases hn2 : n2.installable <;>
      simp [sqlNeq, notifyNodeOrDevice, hab, hn1, hn2]

/-- Witness for claim C10: moving MAC 10 from the installable node abc to
the non-installable node def emits node_update for the old owner and
device_update for the new one. -/
theorem claim10_witness :
    nd_macaddress_update_notify [⟨1, "abc", true⟩, ⟨2, "def", false⟩]
        ⟨10, some 1⟩ ⟨10, some 2⟩ =
      [⟨"node_update", some "abc"⟩, ⟨"device_update", some "def"⟩] := by
  have h := claim10_macaddress_update
    [⟨1, "abc", true⟩, ⟨2, "def", false⟩] ⟨10, some 1⟩ ⟨10, some 2⟩
    1 2 ⟨1, "abc", true⟩ ⟨2, "def", false⟩ rfl rfl (by decide) (by decide)
  simpa using h

/-- Dropping a list of view names is the same as filtering them out of the
installed set. -/
theorem drop_run_eq (L : List String) (s : List String) :
    L.foldl drop_view_if_exists s = s.filter (fun v => !(L.contains v)) := by
  induction L generalizing s with
  | nil => simp
  | cons a L ih =>
    show L.foldl drop_view_if_exists (drop_view_if_exists s a) = _
    rw [ih, drop_view_if_exists, List.filter_filter]
    refine List.filter_congr ?_
    intro v _
    by_cases h : v = a
    · subst h; simp
    · have hb : (v == a) = false := beq_eq_false_iff_ne.mpr h
      simp [List.contains_cons, Bool.and_comm, hb, h]

/-- Claim C9: after register_all_views, drop_all_views leaves none of the
installed view names behind (it iterates the same fixed name set), and a
further drop_all_views call on an already-dropped state is a safe no-op. -/
theorem claim9_teardown (s : List String) :
    (∀ name, name ∈ allViewNames →
        name ∉ drop_all_views (register_all_views s)) ∧
      drop_all_views (drop_all_views s) = drop_all_views s := by
  constructor
  · intro name hname hmem
    rw [drop_all_views, drop_run_eq, List.mem_filter] at hmem
    have h2 := hmem.2
    have hc : allViewNames.contains name = true := by
      simpa [List.contains] using List.elem_eq_true_of_mem hname
    rw [hc] at h2
    simp at h2
  · show List.foldl drop_view_if_exists (drop_all_views s) allViewNames = _
    rw [drop_all_views, drop_run_eq, drop_run_eq, List.filter_filter]
    exact List.filter_congr (fun v _ => Bool.and_self _)

/-- Witness for claim C9: the first view of _ALL_VIEWS is gone after
registering and then dropping from the empty catalogue, and dropping twice
from the empty catalogue is stable. -/
theorem claim9_witness :
    "maasserver_discovery" ∉ drop_all_views (register_all_views []) ∧
      drop_all_views (drop_all_views []) = drop_all_views [] :=
  ⟨(claim9_teardown []).1 "maasserver_discovery" (by decide),
    (claim9_teardown []).2⟩

/-- A registration whose key differs from every key in a registration list
is hit by none of them. -/
theorem hitsAny_toTrigger_eq_false (r : Registration)
    (rs : List Registration) (h : regKey r ∉ rs.map regKey) :
    hitsAny rs (toTrigger r) = false := by
  rw [hitsAny, List.any_eq_false]
  intro r2 hr2
  simp only [keyMatch, toTrigger, Bool.and_eq_true, beq_iff_eq]
  rintro ⟨e1, e2⟩
  exact h (List.mem_map.mpr
    ⟨r2, hr2, by simp [regKey, e1, e2]⟩)

/-- Running a sequence of registrations with pairwise distinct keys drops
the keyed triggers from the prior state and appends the freshly created
ones in registration order. -/
theorem register_run_eq (regs : List Registration)
    (h : (regs.map regKey).Nodup) (s : List TriggerDef) :
    register_run regs s =
      s.filter (fun u => !(hitsAny regs u)) ++ regs.map toTrigger := by
  induction regs generalizing s with
  | nil => simp [register_run, hitsAny]
  | cons r rs ih =>
    rw [List.map_cons, List.nodup_cons] at h
    show register_run rs (register_trigger s r) = _
    rw [ih h.2, register_trigger, List.filter_append, List.filter_filter]
    have hone : List.filter (fun u => !(hitsAny rs u)) [toTrigger r] =
        [toTrigger r] := by
      simp [hitsAny_toTrigger_eq_false r rs h.1]
    rw [hone]
    have hfil : List.filter
        (fun u => !(hitsAny rs u) &&
          !(keyMatch r.table (trigger_name_of r) u)) s =
        List.filter (fun u => !(hitsAny (r :: rs) u)) s := by
      refine List.filter_congr ?_
      intro u _
      simp only [hitsAny, List.any_cons, Bool.not_or]
      rw [Bool.and_comm]
    rw [hfil]
    simp [List.append_assoc]

/-- Every trigger a registration list creates is hit by that same list. -/
theorem filter_not_hits_map (regs : List Registration) :
    (regs.map toTrigger).filter (fun u => !(hitsAny regs u)) = [] := by
  rw [List.filter_eq_nil_iff]
  intro t ht
  obtain ⟨r, hr, rfl⟩ := List.mem_map.mp ht
  have hhit : hitsAny regs (toTrigger r) = true := by
    rw [hitsAny, List.any_eq_true]
    exact ⟨r, hr, by simp [keyMatch, toTrigger]⟩
  simp [hhit]

/-- Claim C6 (amended): register_all_triggers is idempotent — a second call
leaves the installed trigger set exactly as the first left it, and it
installs exactly one trigger per (table, trigger name) key.  One active
trigger per (table, operation) pair, however, is not what registration
produces: several pairs deliberately carry two differently named triggers
(the Node table carries the node and the device variant on each operation,
split by the installable filter). -/
theorem claim6_idempotent :
    (∀ s, register_all_triggers (register_all_triggers s) =
        register_all_triggers s) ∧
      ((register_all_triggers []).map
        (fun t => (t.table, t.trigger_name))).Nodup := by
  have hnd : (allRegistrations.map regKey).Nodup := by decide
  have hform := register_run_eq allRegistrations hnd
  constructor
  · intro s
    show register_run allRegistrations (register_run allRegistrations s) =
      register_run allRegistrations s
    rw [hform s, hform, List.filter_append, List.filter_filter,
      filter_not_hits_map, List.append_nil]
    congr 1
    exact List.filter_congr (fun u _ => by rw [Bool.and_self])
  · have hempty : register_all_triggers [] =
        allRegistrations.map toTrigger := by
      show register_run allRegistrations [] = _
      rw [hform]
      simp
    rw [hempty, List.map_map]
    exact hnd

set_option maxRecDepth 40000 in
/-- Claim C6 is false as stated: after calling register_all_triggers twice
in succession from an empty catalogue, the pair (maasserver_node, insert)
carries two active triggers, not exactly one — the node_create and
device_create bindings coexist on it. -/
theorem claim6_counterexample :
    ((register_all_triggers (register_all_triggers [])).filter
      (fun t => t.table == "maasserver_node" &&
        t.event == "insert")).length = 2 := by
  decide
